import Mathlib

/-!
Verification development for the warband-face-editor backend.

The Python sources are shallowly embedded: Python strings are `List Char`,
Python's unbounded `int` is `Int` (with `Nat` where only non-negative
values occur), exceptions are `Except PyErr`, and the arithmetic/bitwise
operators used by the code (`>>`, `&`, `<<`, `|`) are modelled with the
corresponding two's-complement-faithful operations.
-/

namespace Warband

/-! ### Python integer primitives

Python's `>>` on an arbitrary-precision integer is an arithmetic (floor)
shift and `&` is bitwise AND on the infinite two's complement
representation.  `Int.negSucc a` represents `-(a+1)`, whose bit pattern is
the pointwise complement of `a`, which gives the four cases below. -/

def pyShr : Int → Nat → Int
  | .ofNat a, n => .ofNat (a >>> n)
  | .negSucc a, n => .negSucc (a >>> n)

/-- Bits of `a` that are not set in `b`, i.e. `a AND (NOT b)` (clearing
the bits shared with `b` by xoring them away). -/
def natAndNot (a b : Nat) : Nat := a ^^^ (a &&& b)

def pyLand : Int → Int → Int
  | .ofNat a, .ofNat b => .ofNat (a &&& b)
  | .ofNat a, .negSucc b => .ofNat (natAndNot a b)
  | .negSucc a, .ofNat b => .ofNat (natAndNot b a)
  | .negSucc a, .negSucc b => .negSucc (a ||| b)

/-! ### Exceptions -/

inductive PyErr where
  | valueError (msg : List Char)
  | keyError (msg : List Char)
  | typeError (msg : List Char)
  | indexError (msg : List Char)
  | attributeError (msg : List Char)
  deriving DecidableEq

def pyErrMsg : PyErr → List Char
  | .valueError m => m
  | .keyError m => m
  | .typeError m => m
  | .indexError m => m
  | .attributeError m => m

def exceptIsOk {ε α : Type} : Except ε α → Bool
  | .ok _ => true
  | .error _ => false

instance {ε α : Type} [DecidableEq ε] [DecidableEq α] : DecidableEq (Except ε α)
  | .ok a, .ok b =>
    if h : a = b then .isTrue (by rw [h]) else .isFalse (by intro hh; cases hh; exact h rfl)
  | .error a, .error b =>
    if h : a = b then .isTrue (by rw [h]) else .isFalse (by intro hh; cases hh; exact h rfl)
  | .ok _, .error _ => .isFalse (by intro h; cases h)
  | .error _, .ok _ => .isFalse (by intro h; cases h)

/-! ### Characters

Character classes are expressed through `Char.toNat` code points:
48-57 are the digits, 97-102 are `a`-`f`, 65-70 are `A`-`F`,
32/9/10/13/11/12 are the ASCII whitespace stripped by Python's `int`,
43 is `+`, 45 is `-`, 95 is `_`, 120 is `x`, 88 is `X`. -/

def isPyHexDigit (c : Char) : Bool :=
  (48 ≤ c.toNat && c.toNat ≤ 57) || (97 ≤ c.toNat && c.toNat ≤ 102) ||
    (65 ≤ c.toNat && c.toNat ≤ 70)

def hexVal (c : Char) : Nat :=
  if 48 ≤ c.toNat && c.toNat ≤ 57 then c.toNat - 48
  else if 97 ≤ c.toNat && c.toNat ≤ 102 then c.toNat - 87
  else c.toNat - 55

def pyWs (c : Char) : Bool :=
  c.toNat == 32 || c.toNat == 9 || c.toNat == 10 || c.toNat == 13 ||
    c.toNat == 11 || c.toNat == 12

/-! ### Model of Python `int(s, 16)`

Grammar accepted by CPython for base 16: optional surrounding whitespace,
an optional sign, an optional `0x`/`0X` prefix, then hexadecimal digits
with single underscores allowed between digits (and directly after the
prefix).  The numeric value ignores the underscores. -/

def parseDigitTail : List Char → Nat → Option Nat
  | [], acc => some acc
  | c :: rest, acc =>
    if isPyHexDigit c then parseDigitTail rest (16 * acc + hexVal c)
    else if c.toNat == 95 then
      match rest with
      | d :: rest2 =>
        if isPyHexDigit d then parseDigitTail rest2 (16 * acc + hexVal d) else none
      | [] => none
    else none

def parseDigitStart (prefixSeen : Bool) : List Char → Option Nat
  | [] => none
  | c :: rest =>
    if isPyHexDigit c then parseDigitTail rest (hexVal c)
    else if c.toNat == 95 && prefixSeen then
      match rest with
      | d :: rest2 =>
        if isPyHexDigit d then parseDigitTail rest2 (hexVal d) else none
      | [] => none
    else none

def parseAfterSign : List Char → Option Nat
  | c0 :: c1 :: r =>
    if c0.toNat == 48 && (c1.toNat == 120 || c1.toNat == 88) then parseDigitStart true r
    else parseDigitStart false (c0 :: c1 :: r)
  | l => parseDigitStart false l

def stripWs (l : List Char) : List Char :=
  ((l.dropWhile (fun c => pyWs c)).reverse.dropWhile (fun c => pyWs c)).reverse

def pyIntParse16 (l : List Char) : Option Int :=
  match stripWs l with
  | [] => none
  | c :: r =>
    if c.toNat == 43 then (parseAfterSign r).map (fun n => (n : Int))
    else if c.toNat == 45 then (parseAfterSign r).map (fun n => -(n : Int))
    else (parseAfterSign (c :: r)).map (fun n => (n : Int))

/-! ### Hexadecimal rendering: model of `f"{face_int:016x}"`

`hexDigitsAux` is a fuel-based (hence kernel-computable) little-endian
base-16 digit expansion; `format016x` renders those digits big-endian in
lowercase and zero-pads on the left to 16 characters. -/

def hexDigitChar (d : Nat) : Char :=
  if d < 10 then Char.ofNat (48 + d) else Char.ofNat (87 + d)

def hexDigitsAux : Nat → Nat → List Nat
  | _, 0 => []
  | 0, _ + 1 => []
  | fuel + 1, n + 1 => ((n + 1) % 16) :: hexDigitsAux fuel ((n + 1) / 16)

def hexDigits (n : Nat) : List Nat := hexDigitsAux n n

def format016x (n : Nat) : List Char :=
  List.replicate (16 - (hexDigits n).length) (Char.ofNat 48) ++
    ((hexDigits n).map hexDigitChar).reverse

/-! ### Data model (`app/models/face.py`)

`FaceParameters` carries the raw field values; the pydantic range
validation is the separate construction function `mkFaceParameters`
(fields and validators: 8 morphs each in [0,7], hair/beard/age in [0,63],
skin_tone in [0,4]). -/

structure FaceParameters where
  morphs : List Nat
  hair_index : Nat
  beard_index : Nat
  age : Nat
  skin_tone : Nat
  deriving DecidableEq

def FaceParameters.Valid (p : FaceParameters) : Prop :=
  p.morphs.length = 8 ∧ (∀ m ∈ p.morphs, m ≤ 7) ∧ p.hair_index ≤ 63 ∧
    p.beard_index ≤ 63 ∧ p.age ≤ 63 ∧ p.skin_tone ≤ 4

instance (p : FaceParameters) : Decidable p.Valid := by
  unfold FaceParameters.Valid
  infer_instance

/-- The raw field set returned by `decode_face_code` (a Python dict of
ints before any pydantic validation). -/
structure DecodedFields where
  morphs : List Int
  hair_index : Int
  beard_index : Int
  age : Int
  skin_tone : Int
  deriving DecidableEq

/-! ### Face-code codec (`app/services/face_code_service.py`) -/

/-- `skin_map = {0: 0, 16: 1, 32: 2, 48: 3, 64: 4}` consulted with
`.get(skin_tone, 0)`: unknown raw values fall back to 0. -/
def skin_map (v : Int) : Int :=
  if v = 0 then 0
  else if v = 16 then 1
  else if v = 32 then 2
  else if v = 48 then 3
  else if v = 64 then 4
  else 0

/-- Bit extraction of `decode_face_code` after `int(hex_code, 16)`:
morph i at bits 3i..3i+2, hair at 24-29, beard at 30-35, age at 36-41,
raw skin at 42-47 mapped through `skin_map`. -/
def decodeInt (face_int : Int) : DecodedFields where
  morphs := (List.range 8).map (fun i => pyLand (pyShr face_int (i * 3)) 7)
  hair_index := pyLand (pyShr face_int 24) 63
  beard_index := pyLand (pyShr face_int 30) 63
  age := pyLand (pyShr face_int 36) 63
  skin_tone := skin_map (pyLand (pyShr face_int 42) 63)

/-- `hex_code.startswith('0x')` followed by `hex_code[2:]` (only the
lowercase prefix is stripped at this level). -/
def strip0x : List Char → List Char
  | c0 :: c1 :: r => if c0.toNat == 48 && c1.toNat == 120 then r else c0 :: c1 :: r
  | l => l

def invalidLiteralMsg : List Char := ("invalid literal for int with base 16").toList

def decode_face_code (hex_code : List Char) : Except PyErr DecodedFields :=
  match pyIntParse16 (strip0x hex_code) with
  | none => .error (.valueError invalidLiteralMsg)
  | some n => .ok (decodeInt n)

/-- The morph-encoding loop: `for i, morph in enumerate(params.morphs):
face_int |= (morph & 0b111) << (i * 3)`. -/
def encodeMorphs : List Nat → Nat → Nat → Nat
  | [], _, acc => acc
  | m :: rest, i, acc => encodeMorphs rest (i + 1) (acc ||| ((m &&& 7) <<< (i * 3)))

def skin_values : List Nat := [0, 16, 32, 48, 64]

/-- The accumulator of `encode_face_code` before the skin field is ORed in. -/
def faceIntBase (p : FaceParameters) : Nat :=
  ((encodeMorphs p.morphs 0 0 ||| ((p.hair_index &&& 63) <<< 24)) |||
      ((p.beard_index &&& 63) <<< 30)) |||
    ((p.age &&& 63) <<< 36)

/-- The packed integer produced by `encode_face_code`; the list indexing
`skin_values[params.skin_tone]` raises IndexError when the index is out
of range. -/
def face_code_int (p : FaceParameters) : Except PyErr Nat :=
  match skin_values.get? p.skin_tone with
  | none => .error (.indexError (("list index out of range").toList))
  | some skin_value => .ok (faceIntBase p ||| ((skin_value &&& 63) <<< 42))

def encode_face_code (p : FaceParameters) : Except PyErr (List Char) :=
  (face_code_int p).map (fun n => Char.ofNat 48 :: Char.ofNat 120 :: format016x n)

/-- pydantic construction `FaceParameters(**params_dict)`: every field
range-checked; any violation raises a ValidationError, a subclass of
ValueError. -/
def validationErrMsg : List Char := ("validation error for FaceParameters").toList

def mkFaceParameters (d : DecodedFields) : Except PyErr FaceParameters :=
  if d.morphs.length = 8 ∧ (∀ m ∈ d.morphs, 0 ≤ m ∧ m ≤ 7) ∧
      0 ≤ d.hair_index ∧ d.hair_index ≤ 63 ∧ 0 ≤ d.beard_index ∧ d.beard_index ≤ 63 ∧
      0 ≤ d.age ∧ d.age ≤ 63 ∧ 0 ≤ d.skin_tone ∧ d.skin_tone ≤ 4 then
    .ok ⟨d.morphs.map Int.toNat, d.hair_index.toNat, d.beard_index.toNat,
      d.age.toNat, d.skin_tone.toNat⟩
  else
    .error (.valueError validationErrMsg)

/-! ### Validate endpoint (`app/api/api_v1/endpoints/face.py`) -/

structure ValidateResult where
  valid : Bool
  face_code : List Char
  message : List Char
  deriving DecidableEq

def validate_face_code (face_code : List Char) : ValidateResult :=
  match decode_face_code face_code with
  | .error e => ⟨false, face_code, pyErrMsg e⟩
  | .ok d =>
    match mkFaceParameters d with
    | .error e => ⟨false, face_code, pyErrMsg e⟩
    | .ok _ => ⟨true, face_code, ("Face code is valid").toList⟩

/-! ### Profile parser (`app/services/profile_parser.py`)

The external `list_characters` enumeration is a third-party library; its
result (an ordered list of raw records carrying name/sex/skin) is taken
as the input of `parse_profile`. -/

structure RawCharacter where
  name : List Char
  sex : Int
  skin : Int

structure Character where
  name : List Char
  face_code : List Char
  sex : Int
  skin : Int
  deriving DecidableEq

/-- pydantic `Character(...)`: `sex` is constrained to [0,1]; the other
fields are unconstrained. -/
def mkCharacter (name face_code : List Char) (sex skin : Int) : Except PyErr Character :=
  if 0 ≤ sex ∧ sex ≤ 1 then .ok ⟨name, face_code, sex, skin⟩
  else .error (.valueError (("validation error for Character").toList))

/-- `_extract_face_code`: stub that ignores the raw record entirely. -/
def extract_face_code (_c : RawCharacter) : List Char :=
  ("0x0000000000000000").toList

def parse_profile : List RawCharacter → Except PyErr (List Character)
  | [] => .ok []
  | c :: rest =>
    match mkCharacter c.name (extract_face_code c) c.sex c.skin with
    | .error e => .error e
    | .ok ch =>
      match parse_profile rest with
      | .error e => .error e
      | .ok chs => .ok (ch :: chs)

/-! ### Profile update endpoint (`app/api/api_v1/endpoints/profiles.py`)

The stored uploads directory is modelled as an association list from file
path to file bytes; `update_character_face` threads it to express that it
performs no mutation. -/

structure ServerState where
  uploads : List (List Char × List Nat)

def update_character_face (st : ServerState) (_profile_path : List Char)
    (_character_index : Int) (_face_code : List Char) : Bool × ServerState :=
  (false, st)

def uploadPath (upload_id : List Char) : List Char :=
  upload_id ++ (".dat").toList

def fileExists (st : ServerState) (path : List Char) : Bool :=
  (st.uploads.lookup path).isSome

structure HttpResponse where
  status : Nat
  body : List Char
  deriving DecidableEq

/-- `str(HTTPException(status, detail))` as rendered by starlette:
`"<status>: <detail>"`. -/
def httpExcStr (status : Nat) (detail : List Char) : List Char :=
  (Nat.repr status).toList ++ (": ").toList ++ detail

/-- PUT `/{upload_id}/characters/{character_index}/face`.  The 404 branch
is raised before the `try`; the "Failed to update face" HTTPException is
raised inside the `try`, caught by `except Exception`, and re-raised as a
400 whose detail is `str(e)`. -/
def update_character_face_endpoint (st : ServerState) (upload_id : List Char)
    (character_index : Int) (face_code : List Char) : HttpResponse × ServerState :=
  let path := uploadPath upload_id
  if fileExists st path then
    let r := update_character_face st path character_index face_code
    if r.1 then (⟨200, ("Face updated successfully").toList⟩, r.2)
    else (⟨400, httpExcStr 400 (("Failed to update face").toList)⟩, r.2)
  else
    (⟨404, ("Upload not found").toList⟩, st)

/-! ### WebSocket channel (`app/api/api_v1/endpoints/websocket.py`)

Incoming frames are taken after `json.loads`, as JSON values; outgoing
`send_text(json.dumps(...))` frames are modelled by the value they
serialize. -/

inductive Json where
  | null : Json
  | bool (b : Bool) : Json
  | num (n : Int) : Json
  | str (s : List Char) : Json
  | arr (items : List Json) : Json
  | obj (fields : List (List Char × Json)) : Json

/-- Python dict built by `json.loads`: a later duplicate key overwrites an
earlier one, hence the reversed lookup. -/
def dictGet (kvs : List (List Char × Json)) (key : List Char) : Option Json :=
  match kvs.reverse.find? (fun kv => kv.1 == key) with
  | some kv => some kv.2
  | none => none

/-- Python `update.get("type") == <string literal>`: `None` and non-string
values compare unequal to a `str`. -/
def jsonEqStr : Option Json → List Char → Bool
  | some (.str t), s => t == s
  | _, _ => false

def jsonInts : List Json → Option (List Int)
  | [] => some []
  | .num n :: rest => (jsonInts rest).map (fun l => n :: l)
  | _ :: _ => none

/-- `FaceParameters(**update["parameters"])` from a JSON value: `**` of a
non-mapping raises TypeError; missing/mistyped/out-of-range fields raise
pydantic's ValidationError (a ValueError). -/
def mkFaceParametersJson (j : Json) : Except PyErr FaceParameters :=
  match j with
  | .obj kvs =>
    match dictGet kvs (("morphs").toList), dictGet kvs (("hair_index").toList),
        dictGet kvs (("beard_index").toList), dictGet kvs (("age").toList),
        dictGet kvs (("skin_tone").toList) with
    | some (.arr ms), some (.num hair), some (.num beard), some (.num age),
        some (.num skin) =>
      match jsonInts ms with
      | some mvals => mkFaceParameters ⟨mvals, hair, beard, age, skin⟩
      | none => .error (.valueError validationErrMsg)
    | _, _, _, _, _ => .error (.valueError validationErrMsg)
  | _ => .error (.typeError (("argument after ** must be a mapping").toList))

inductive OutFrame where
  | face_update_response (params : FaceParameters) (face_code : List Char)
  | errorFrame (message : List Char)
  | pong
  deriving DecidableEq

/-- One iteration of the receive loop on a parsed message: the frames sent
and, if the body raised outside the `except ValueError` handler, the
uncaught exception.  `update["parameters"]` on a missing key raises
KeyError, which `except ValueError` does not catch. -/
def wsStep (update : Json) : List OutFrame × Option PyErr :=
  match update with
  | .obj kvs =>
    if jsonEqStr (dictGet kvs (("type").toList)) (("face_update").toList) then
      match dictGet kvs (("parameters").toList) with
      | none => ([], some (.keyError (("parameters").toList)))
      | some pj =>
        match mkFaceParametersJson pj with
        | .ok p =>
          match encode_face_code p with
          | .ok code => ([.face_update_response p code], none)
          | .error e => ([], some e)
        | .error (.valueError m) => ([.errorFrame m], none)
        | .error e => ([], some e)
    else if jsonEqStr (dictGet kvs (("type").toList)) (("ping").toList) then
      ([.pong], none)
    else ([], none)
  | _ => ([], some (.attributeError (("get").toList)))

/-- The receive loop over a finite incoming message sequence: an uncaught
exception tears the loop down, leaving later messages unprocessed; the
list ending corresponds to a clean client disconnect. -/
def wsLoop : List Json → List OutFrame × Option PyErr
  | [] => ([], none)
  | m :: rest =>
    match wsStep m with
    | (fs, none) =>
      match wsLoop rest with
      | (fs2, e) => (fs ++ fs2, e)
    | (fs, some e) => (fs, some e)

/-! ### Statement-level helper definitions -/

/-- "A valid non-empty sequence of hexadecimal digits" (claim C7's
characterisation of the post-strip input). -/
def specHexSeq (l : List Char) : Bool :=
  !l.isEmpty && l.all isPyHexDigit

/-- Base-16 value of a big-endian hex digit string. -/
def hexListVal (l : List Char) : Nat :=
  l.foldl (fun a c => 16 * a + hexVal c) 0

/-- The `FaceCode` regex `^0x[0-9a-fA-F]+$`. -/
def faceCodePattern (l : List Char) : Bool :=
  match l with
  | c0 :: c1 :: r => c0.toNat == 48 && c1.toNat == 120 && !r.isEmpty && r.all isPyHexDigit
  | _ => false

def isLowerHexDigit (c : Char) : Bool :=
  (48 ≤ c.toNat && c.toNat ≤ 57) || (97 ≤ c.toNat && c.toNat ≤ 102)

/-- The failing input for the skin-tone round-trip: all-zero sliders with
skin_tone = 4. -/
def faceParamsSkin4 : FaceParameters :=
  ⟨[0, 0, 0, 0, 0, 0, 0, 0], 0, 0, 0, 4⟩

/-! ## Bit-arithmetic infrastructure -/

theorem and_mask7 (x : Nat) : x &&& 7 = x % 8 := by
  have h := Nat.and_pow_two_sub_one_eq_mod x 3
  norm_num at h
  exact h

theorem and_mask63 (x : Nat) : x &&& 63 = x % 64 := by
  have h := Nat.and_pow_two_sub_one_eq_mod x 6
  norm_num at h
  exact h

/-- ORing a value shifted past all the bits of the accumulator is addition. -/
theorem lor_shiftLeft_eq_add {a : Nat} (b k n : Nat) (h : a < k) (hk : k = 2 ^ n) :
    a ||| b <<< n = a + b * k := by
  subst hk
  apply Nat.eq_of_testBit_eq
  intro i
  rw [Nat.testBit_or, Nat.testBit_shiftLeft,
    show a + b * 2 ^ n = 2 ^ n * b + a by ring, Nat.testBit_mul_pow_two_add b h i]
  by_cases hi : i < n
  · simp [hi, Nat.not_le_of_lt hi]
  · have hf : a.testBit i = false :=
      Nat.testBit_lt_two_pow
        (lt_of_lt_of_le h (Nat.pow_le_pow_right (by norm_num) (Nat.le_of_not_lt hi)))
    simp [hi, hf, Nat.le_of_not_lt hi]

theorem natAndNot_testBit (a b i : Nat) :
    (natAndNot a b).testBit i = (a.testBit i && !(b.testBit i)) := by
  simp only [natAndNot, Nat.testBit_xor, Nat.testBit_and]
  cases a.testBit i <;> cases b.testBit i <;> rfl

set_option maxHeartbeats 2000000 in
/-- The packed face-code integer as a plain weighted sum of the masked
fields (weights `8^i` for morph i, `2^24`, `2^30`, `2^36`, `2^42` for
hair/beard/age/skin). -/
theorem faceIntFull_eq (m0 m1 m2 m3 m4 m5 m6 m7 hair beard age st sv : Nat) :
    faceIntBase ⟨[m0, m1, m2, m3, m4, m5, m6, m7], hair, beard, age, st⟩ |||
        (sv &&& 63) <<< 42 =
      m0 % 8 + m1 % 8 * 8 + m2 % 8 * 64 + m3 % 8 * 512 + m4 % 8 * 4096 +
        m5 % 8 * 32768 + m6 % 8 * 262144 + m7 % 8 * 2097152 + hair % 64 * 16777216 +
        beard % 64 * 1073741824 + age % 64 * 68719476736 + sv % 64 * 4398046511104 := by
  norm_num [faceIntBase, encodeMorphs, and_mask7, and_mask63]
  have a1 : m0 % 8 ||| (m1 % 8) <<< 3 = m0 % 8 + m1 % 8 * 8 :=
    lor_shiftLeft_eq_add _ 8 3 (by omega) (by norm_num)
  have a2 : m0 % 8 + m1 % 8 * 8 ||| (m2 % 8) <<< 6 =
      m0 % 8 + m1 % 8 * 8 + m2 % 8 * 64 :=
    lor_shiftLeft_eq_add _ 64 6 (by omega) (by norm_num)
  have a3 : m0 % 8 + m1 % 8 * 8 + m2 % 8 * 64 ||| (m3 % 8) <<< 9 =
      m0 % 8 + m1 % 8 * 8 + m2 % 8 * 64 + m3 % 8 * 512 :=
    lor_shiftLeft_eq_add _ 512 9 (by omega) (by norm_num)
  have a4 : m0 % 8 + m1 % 8 * 8 + m2 % 8 * 64 + m3 % 8 * 512 ||| (m4 % 8) <<< 12 =
      m0 % 8 + m1 % 8 * 8 + m2 % 8 * 64 + m3 % 8 * 512 + m4 % 8 * 4096 :=
    lor_shiftLeft_eq_add _ 4096 12 (by omega) (by norm_num)
  have a5 : m0 % 8 + m1 % 8 * 8 + m2 % 8 * 64 + m3 % 8 * 512 + m4 % 8 * 4096 |||
        (m5 % 8) <<< 15 =
      m0 % 8 + m1 % 8 * 8 + m2 % 8 * 64 + m3 % 8 * 512 + m4 % 8 * 4096 +
        m5 % 8 * 32768 :=
    lor_shiftLeft_eq_add _ 32768 15 (by omega) (by norm_num)
  have a6 : m0 % 8 + m1 % 8 * 8 + m2 % 8 * 64 + m3 % 8 * 512 + m4 % 8 * 4096 +
        m5 % 8 * 32768 ||| (m6 % 8) <<< 18 =
      m0 % 8 + m1 % 8 * 8 + m2 % 8 * 64 + m3 % 8 * 512 + m4 % 8 * 4096 +
        m5 % 8 * 32768 + m6 % 8 * 262144 :=
    lor_shiftLeft_eq_add _ 262144 18 (by omega) (by norm_num)
  have a7 : m0 % 8 + m1 % 8 * 8 + m2 % 8 * 64 + m3 % 8 * 512 + m4 % 8 * 4096 +
        m5 % 8 * 32768 + m6 % 8 * 262144 ||| (m7 % 8) <<< 21 =
      m0 % 8 + m1 % 8 * 8 + m2 % 8 * 64 + m3 % 8 * 512 + m4 % 8 * 4096 +
        m5 % 8 * 32768 + m6 % 8 * 262144 + m7 % 8 * 2097152 :=
    lor_shiftLeft_eq_add _ 2097152 21 (by omega) (by norm_num)
  have a8 : m0 % 8 + m1 % 8 * 8 + m2 % 8 * 64 + m3 % 8 * 512 + m4 % 8 * 4096 +
        m5 % 8 * 32768 + m6 % 8 * 262144 + m7 % 8 * 2097152 ||| (hair % 64) <<< 24 =
      m0 % 8 + m1 % 8 * 8 + m2 % 8 * 64 + m3 % 8 * 512 + m4 % 8 * 4096 +
        m5 % 8 * 32768 + m6 % 8 * 262144 + m7 % 8 * 2097152 + hair % 64 * 16777216 :=
    lor_shiftLeft_eq_add _ 16777216 24 (by omega) (by norm_num)
  have a9 : m0 % 8 + m1 % 8 * 8 + m2 % 8 * 64 + m3 % 8 * 512 + m4 % 8 * 4096 +
        m5 % 8 * 32768 + m6 % 8 * 262144 + m7 % 8 * 2097152 + hair % 64 * 16777216 |||
        (beard % 64) <<< 30 =
      m0 % 8 + m1 % 8 * 8 + m2 % 8 * 64 + m3 % 8 * 512 + m4 % 8 * 4096 +
        m5 % 8 * 32768 + m6 % 8 * 262144 + m7 % 8 * 2097152 + hair % 64 * 16777216 +
        beard % 64 * 1073741824 :=
    lor_shiftLeft_eq_add _ 1073741824 30 (by omega) (by norm_num)
  have a10 : m0 % 8 + m1 % 8 * 8 + m2 % 8 * 64 + m3 % 8 * 512 + m4 % 8 * 4096 +
        m5 % 8 * 32768 + m6 % 8 * 262144 + m7 % 8 * 2097152 + hair % 64 * 16777216 +
        beard % 64 * 1073741824 ||| (age % 64) <<< 36 =
      m0 % 8 + m1 % 8 * 8 + m2 % 8 * 64 + m3 % 8 * 512 + m4 % 8 * 4096 +
        m5 % 8 * 32768 + m6 % 8 * 262144 + m7 % 8 * 2097152 + hair % 64 * 16777216 +
        beard % 64 * 1073741824 + age % 64 * 68719476736 :=
    lor_shiftLeft_eq_add _ 68719476736 36 (by omega) (by norm_num)
  have a11 : m0 % 8 + m1 % 8 * 8 + m2 % 8 * 64 + m3 % 8 * 512 + m4 % 8 * 4096 +
        m5 % 8 * 32768 + m6 % 8 * 262144 + m7 % 8 * 2097152 + hair % 64 * 16777216 +
        beard % 64 * 1073741824 + age % 64 * 68719476736 ||| (sv % 64) <<< 42 =
      m0 % 8 + m1 % 8 * 8 + m2 % 8 * 64 + m3 % 8 * 512 + m4 % 8 * 4096 +
        m5 % 8 * 32768 + m6 % 8 * 262144 + m7 % 8 * 2097152 + hair % 64 * 16777216 +
        beard % 64 * 1073741824 + age % 64 * 68719476736 + sv % 64 * 4398046511104 :=
    lor_shiftLeft_eq_add _ 4398046511104 42 (by omega) (by norm_num)
  rw [a1, a2, a3, a4, a5, a6, a7, a8, a9, a10, a11]

theorem exists_eight (l : List Nat) (h : l.length = 8) :
    ∃ a0 a1 a2 a3 a4 a5 a6 a7 : Nat, l = [a0, a1, a2, a3, a4, a5, a6, a7] := by
  rcases l with _ | ⟨a0, _ | ⟨a1, _ | ⟨a2, _ | ⟨a3, _ | ⟨a4, _ | ⟨a5, _ | ⟨a6, _ |
    ⟨a7, _ | ⟨a8, t⟩⟩⟩⟩⟩⟩⟩⟩⟩ <;> simp at h
  exact ⟨a0, a1, a2, a3, a4, a5, a6, a7, rfl⟩

/-- Unpacking a successful `face_code_int`: the skin lookup succeeded and
the result is the weighted sum of the masked fields. -/
theorem face_code_int_ok (p : FaceParameters) (N : Nat)
    (hN : face_code_int p = .ok N) :
    ∃ sv, skin_values.get? p.skin_tone = some sv ∧
      N = faceIntBase p ||| ((sv &&& 63) <<< 42) := by
  unfold face_code_int at hN
  rcases h : skin_values.get? p.skin_tone with - | sv <;> rw [h] at hN
  · cases hN
  · cases hN
    exact ⟨sv, rfl, rfl⟩

set_option maxHeartbeats 1000000 in
/-- Extraction of morph `i` from an encoded face-code integer. -/
theorem face_code_int_morph (p : FaceParameters) (N : Nat)
    (hN : face_code_int p = .ok N) (hlen : p.morphs.length = 8)
    (i : Nat) (hi : i < 8) :
    N >>> (i * 3) &&& 7 = p.morphs.getD i 0 % 8 := by
  obtain ⟨sv, hsv, hsum⟩ := face_code_int_ok p N hN
  obtain ⟨ms, hair, beard, age, st⟩ := p
  obtain ⟨m0, m1, m2, m3, m4, m5, m6, m7, rfl⟩ := exists_eight ms hlen
  rw [faceIntFull_eq] at hsum
  subst hsum
  interval_cases i <;>
    simp only [List.getD, List.getElem?_cons_zero, List.getElem?_cons_succ,
      Option.getD_some] <;>
    (rw [and_mask7, Nat.shiftRight_eq_div_pow]; norm_num; omega)

set_option maxHeartbeats 400000 in
/-- Extraction of the hair field (bits 24-29). -/
theorem face_code_int_hair (p : FaceParameters) (N : Nat)
    (hN : face_code_int p = .ok N) (hlen : p.morphs.length = 8) :
    N >>> 24 &&& 63 = p.hair_index % 64 := by
  obtain ⟨sv, hsv, hsum⟩ := face_code_int_ok p N hN
  obtain ⟨ms, hair, beard, age, st⟩ := p
  obtain ⟨m0, m1, m2, m3, m4, m5, m6, m7, rfl⟩ := exists_eight ms hlen
  rw [faceIntFull_eq] at hsum
  subst hsum
  rw [and_mask63, Nat.shiftRight_eq_div_pow]
  norm_num
  omega

set_option maxHeartbeats 400000 in
/-- Extraction of the beard field (bits 30-35). -/
theorem face_code_int_beard (p : FaceParameters) (N : Nat)
    (hN : face_code_int p = .ok N) (hlen : p.morphs.length = 8) :
    N >>> 30 &&& 63 = p.beard_index % 64 := by
  obtain ⟨sv, hsv, hsum⟩ := face_code_int_ok p N hN
  obtain ⟨ms, hair, beard, age, st⟩ := p
  obtain ⟨m0, m1, m2, m3, m4, m5, m6, m7, rfl⟩ := exists_eight ms hlen
  rw [faceIntFull_eq] at hsum
  subst hsum
  rw [and_mask63, Nat.shiftRight_eq_div_pow]
  norm_num
  omega

set_option maxHeartbeats 400000 in
/-- Extraction of the age field (bits 36-41). -/
theorem face_code_int_age (p : FaceParameters) (N : Nat)
    (hN : face_code_int p = .ok N) (hlen : p.morphs.length = 8) :
    N >>> 36 &&& 63 = p.age % 64 := by
  obtain ⟨sv, hsv, hsum⟩ := face_code_int_ok p N hN
  obtain ⟨ms, hair, beard, age, st⟩ := p
  obtain ⟨m0, m1, m2, m3, m4, m5, m6, m7, rfl⟩ := exists_eight ms hlen
  rw [faceIntFull_eq] at hsum
  subst hsum
  rw [and_mask63, Nat.shiftRight_eq_div_pow]
  norm_num
  omega

set_option maxHeartbeats 400000 in
/-- Extraction of the raw skin field (bits 42-47): it carries the palette
value modulo 64. -/
theorem face_code_int_skin (p : FaceParameters) (N sv : Nat)
    (hN : face_code_int p = .ok N) (hlen : p.morphs.length = 8)
    (hsv : skin_values.get? p.skin_tone = some sv) :
    N >>> 42 &&& 63 = sv % 64 := by
  obtain ⟨sv2, hsv2, hsum⟩ := face_code_int_ok p N hN
  rw [hsv] at hsv2
  cases hsv2
  obtain ⟨ms, hair, beard, age, st⟩ := p
  obtain ⟨m0, m1, m2, m3, m4, m5, m6, m7, rfl⟩ := exists_eight ms hlen
  rw [faceIntFull_eq] at hsum
  subst hsum
  rw [and_mask63, Nat.shiftRight_eq_div_pow]
  norm_num
  omega

set_option maxHeartbeats 400000 in
/-- The encoded integer always fits in 48 bits. -/
theorem face_code_int_lt (p : FaceParameters) (N : Nat)
    (hN : face_code_int p = .ok N) (hlen : p.morphs.length = 8) :
    N < 281474976710656 := by
  obtain ⟨sv, hsv, hsum⟩ := face_code_int_ok p N hN
  obtain ⟨ms, hair, beard, age, st⟩ := p
  obtain ⟨m0, m1, m2, m3, m4, m5, m6, m7, rfl⟩ := exists_eight ms hlen
  rw [faceIntFull_eq] at hsum
  omega

/-! ## Hex-string parsing lemmas -/

theorem pyShr_ofNat (a n : Nat) : pyShr (Int.ofNat a) n = Int.ofNat (a >>> n) := rfl

theorem pyLand_ofNat (a b : Nat) :
    pyLand (Int.ofNat a) (Int.ofNat b) = Int.ofNat (a &&& b) := rfl

theorem hex_not_ws (c : Char) (h : isPyHexDigit c = true) : pyWs c = false := by
  simp only [isPyHexDigit, Bool.or_eq_true, Bool.and_eq_true, decide_eq_true_eq] at h
  simp only [pyWs, Bool.or_eq_false_iff, beq_eq_false_iff_ne, ne_eq]
  omega

theorem parseDigitTail_all_hex (l : List Char) (acc : Nat)
    (h : l.all isPyHexDigit = true) :
    parseDigitTail l acc = some (l.foldl (fun a c => 16 * a + hexVal c) acc) := by
  induction l generalizing acc with
  | nil => rfl
  | cons c rest ih =>
    rw [List.all_cons, Bool.and_eq_true] at h
    rw [List.foldl_cons, parseDigitTail.eq_def]
    simp only [h.1, if_true]
    exact ih _ h.2

theorem parseDigitStart_all_hex (l : List Char) (b : Bool) (hne : l ≠ [])
    (h : l.all isPyHexDigit = true) :
    parseDigitStart b l = some (hexListVal l) := by
  cases l with
  | nil => exact absurd rfl hne
  | cons c rest =>
    rw [List.all_cons, Bool.and_eq_true] at h
    simp only [parseDigitStart, h.1, if_true]
    rw [parseDigitTail_all_hex rest (hexVal c) h.2]
    simp [hexListVal]

theorem dropWhile_pyWs_eq_self (l : List Char) (h : ∀ c ∈ l, pyWs c = false) :
    l.dropWhile (fun c => pyWs c) = l := by
  cases l with
  | nil => rfl
  | cons c rest => simp [List.dropWhile_cons, h c (List.mem_cons_self c rest)]

theorem stripWs_eq_self (l : List Char) (h : ∀ c ∈ l, pyWs c = false) :
    stripWs l = l := by
  unfold stripWs
  rw [dropWhile_pyWs_eq_self l h,
    dropWhile_pyWs_eq_self l.reverse (fun c hc => h c (List.mem_reverse.mp hc)),
    List.reverse_reverse]

theorem pyIntParse16_all_hex (l : List Char) (hne : l ≠ [])
    (h : l.all isPyHexDigit = true) :
    pyIntParse16 l = some (Int.ofNat (hexListVal l)) := by
  have hmem : ∀ c ∈ l, isPyHexDigit c = true := by
    intro c hc
    exact List.all_eq_true.mp h c hc
  have hsw : stripWs l = l := stripWs_eq_self l (fun c hc => hex_not_ws c (hmem c hc))
  cases l with
  | nil => exact absurd rfl hne
  | cons c rest =>
    have hc : isPyHexDigit c = true := hmem c (List.mem_cons_self c rest)
    have hc' : 48 ≤ c.toNat ∧ c.toNat ≤ 57 ∨ 97 ≤ c.toNat ∧ c.toNat ≤ 102 ∨
        65 ≤ c.toNat ∧ c.toNat ≤ 70 := by
      simpa only [isPyHexDigit, Bool.or_eq_true, Bool.and_eq_true, decide_eq_true_eq,
        or_assoc] using hc
    have h43 : (c.toNat == 43) = false := by
      simp only [beq_eq_false_iff_ne, ne_eq]
      omega
    have h45 : (c.toNat == 45) = false := by
      simp only [beq_eq_false_iff_ne, ne_eq]
      omega
    rw [pyIntParse16, hsw]
    simp only [h43, h45, if_false, Bool.false_eq_true]
    have hpa : parseAfterSign (c :: rest) = parseDigitStart false (c :: rest) := by
      cases rest with
      | nil => rfl
      | cons c1 rest2 =>
        have hc1 : isPyHexDigit c1 = true :=
          hmem c1 (List.mem_cons_of_mem c (List.mem_cons_self c1 rest2))
        have hc1' : (c1.toNat == 120 || c1.toNat == 88) = false := by
          simp only [isPyHexDigit, Bool.or_eq_true, Bool.and_eq_true,
            decide_eq_true_eq] at hc1
          simp only [Bool.or_eq_false_iff, beq_eq_false_iff_ne, ne_eq]
          omega
        simp [parseAfterSign, hc1']
    rw [hpa, parseDigitStart_all_hex (c :: rest) false (by simp) h]
    rfl

theorem strip0x_prepend (s : List Char) :
    strip0x (Char.ofNat 48 :: Char.ofNat 120 :: s) = s := by
  have hcond : ((Char.ofNat 48).toNat == 48 && (Char.ofNat 120).toNat == 120) = true := by
    decide
  simp [strip0x, hcond]

theorem strip0x_all_hex (s : List Char) (h : s.all isPyHexDigit = true) :
    strip0x s = s := by
  cases s with
  | nil => rfl
  | cons c0 rest =>
    cases rest with
    | nil => rfl
    | cons c1 rest2 =>
      have hc1 : isPyHexDigit c1 = true := by
        rw [List.all_cons, Bool.and_eq_true, List.all_cons, Bool.and_eq_true] at h
        exact h.2.1
      have : (c1.toNat == 120) = false := by
        simp only [isPyHexDigit, Bool.or_eq_true, Bool.and_eq_true,
          decide_eq_true_eq] at hc1
        simp only [beq_eq_false_iff_ne, ne_eq]
        omega
      simp [strip0x, this]

/-! ## Hex-rendering lemmas -/

theorem hexDigitsAux_eq (fuel n : Nat) (h : n ≤ fuel) :
    hexDigitsAux fuel n = Nat.digits 16 n := by
  induction fuel generalizing n with
  | zero =>
    have : n = 0 := by omega
    subst this
    simp [hexDigitsAux, Nat.digits_zero]
  | succ f ih =>
    cases n with
    | zero => simp [hexDigitsAux, Nat.digits_zero]
    | succ m =>
      rw [hexDigitsAux, Nat.digits_def' (by norm_num : (1 : Nat) < 16) (Nat.succ_pos m)]
      congr 1
      refine ih _ ?_
      have := Nat.div_lt_self (Nat.succ_pos m) (by norm_num : 1 < 16)
      omega

theorem hexDigits_eq (n : Nat) : hexDigits n = Nat.digits 16 n :=
  hexDigitsAux_eq n n le_rfl

theorem hexVal_hexDigitChar (d : Nat) (h : d < 16) : hexVal (hexDigitChar d) = d := by
  interval_cases d <;> decide

theorem isLowerHexDigit_hexDigitChar (d : Nat) (h : d < 16) :
    isLowerHexDigit (hexDigitChar d) = true := by
  interval_cases d <;> decide

theorem foldl_hex_digits (ds : List Nat) (hds : ∀ d ∈ ds, d < 16) (acc : Nat) :
    ((ds.map hexDigitChar).reverse).foldl (fun a c => 16 * a + hexVal c) acc =
      acc * 16 ^ ds.length + Nat.ofDigits 16 ds := by
  induction ds generalizing acc with
  | nil => simp [Nat.ofDigits_nil]
  | cons d tl ih =>
    rw [List.map_cons, List.reverse_cons, List.foldl_append,
      ih (fun x hx => hds x (List.mem_cons_of_mem d hx)) acc]
    simp only [List.foldl_cons, List.foldl_nil]
    rw [hexVal_hexDigitChar d (hds d (List.mem_cons_self d tl)), Nat.ofDigits_cons]
    rw [List.length_cons, pow_succ]
    ring

theorem foldl_zeros (k : Nat) :
    (List.replicate k (Char.ofNat 48)).foldl (fun a c => 16 * a + hexVal c) 0 = 0 := by
  induction k with
  | zero => rfl
  | succ j ih =>
    rw [List.replicate_succ, List.foldl_cons]
    simpa using ih

theorem hexListVal_format016x (n : Nat) : hexListVal (format016x n) = n := by
  unfold hexListVal format016x
  rw [List.foldl_append, foldl_zeros]
  rw [hexDigits_eq]
  rw [foldl_hex_digits (Nat.digits 16 n)
    (fun d hd => Nat.digits_lt_base (by norm_num) hd) 0]
  simp [Nat.ofDigits_digits]

theorem format016x_all_hex (n : Nat) :
    (format016x n).all isPyHexDigit = true := by
  rw [List.all_eq_true]
  intro c hc
  unfold format016x at hc
  rw [List.mem_append] at hc
  have hlow : isLowerHexDigit c = true := by
    rcases hc with hc | hc
    · rw [List.eq_of_mem_replicate hc]
      decide
    · rw [List.mem_reverse, List.mem_map] at hc
      obtain ⟨d, hd, rfl⟩ := hc
      rw [hexDigits_eq] at hd
      exact isLowerHexDigit_hexDigitChar d (Nat.digits_lt_base (by norm_num) hd)
  simp only [isLowerHexDigit, Bool.or_eq_true, Bool.and_eq_true, decide_eq_true_eq] at hlow
  simp only [isPyHexDigit, Bool.or_eq_true, Bool.and_eq_true, decide_eq_true_eq]
  omega

theorem format016x_lower (n : Nat) :
    ∀ c ∈ format016x n, isLowerHexDigit c = true := by
  intro c hc
  unfold format016x at hc
  rw [List.mem_append] at hc
  rcases hc with hc | hc
  · rw [List.eq_of_mem_replicate hc]
    decide
  · rw [List.mem_reverse, List.mem_map] at hc
    obtain ⟨d, hd, rfl⟩ := hc
    rw [hexDigits_eq] at hd
    exact isLowerHexDigit_hexDigitChar d (Nat.digits_lt_base (by norm_num) hd)

/-! ## Decode-side range lemmas -/

theorem pyLand_ofNat_mask (x : Int) (m : Nat) :
    ∃ a : Nat, pyLand x (Int.ofNat m) = Int.ofNat a ∧ a ≤ m := by
  cases x with
  | ofNat b => exact ⟨b &&& m, rfl, Nat.and_le_right⟩
  | negSucc b =>
    refine ⟨natAndNot m b, rfl, Nat.le_of_testBit ?_⟩
    intro i hi
    rw [natAndNot_testBit] at hi
    exact (Bool.and_eq_true _ _).mp hi |>.1

theorem pyLand_seven (x : Int) : ∃ a : Nat, pyLand x 7 = Int.ofNat a ∧ a ≤ 7 :=
  pyLand_ofNat_mask x 7

theorem pyLand_sixty_three (x : Int) :
    ∃ a : Nat, pyLand x 63 = Int.ofNat a ∧ a ≤ 63 :=
  pyLand_ofNat_mask x 63

theorem skin_map_range (v : Int) : 0 ≤ skin_map v ∧ skin_map v ≤ 4 := by
  unfold skin_map
  split_ifs <;> norm_num

/-- The raw field set extracted from any integer always passes pydantic
validation: each morph lands in [0,7], hair/beard/age in [0,63] and the
mapped skin tone in [0,4]. -/
theorem mkFaceParameters_decodeInt (n : Int) :
    ∃ p, mkFaceParameters (decodeInt n) = .ok p := by
  unfold mkFaceParameters
  rw [if_pos]
  · exact ⟨_, rfl⟩
  refine ⟨by simp [decodeInt], ?_, ?_, ?_, ?_, ?_, ?_, ?_, ?_, ?_⟩
  · intro m hm
    simp only [decodeInt, List.mem_map, List.mem_range] at hm
    obtain ⟨i, -, rfl⟩ := hm
    obtain ⟨a, ha, hle⟩ := pyLand_seven (pyShr n (i * 3))
    rw [ha, Int.ofNat_eq_natCast]
    omega
  · obtain ⟨a, ha, hle⟩ := pyLand_sixty_three (pyShr n 24)
    show 0 ≤ (decodeInt n).hair_index
    simp only [decodeInt, ha, Int.ofNat_eq_natCast]
    omega
  · obtain ⟨a, ha, hle⟩ := pyLand_sixty_three (pyShr n 24)
    show (decodeInt n).hair_index ≤ 63
    simp only [decodeInt, ha, Int.ofNat_eq_natCast]
    omega
  · obtain ⟨a, ha, hle⟩ := pyLand_sixty_three (pyShr n 30)
    show 0 ≤ (decodeInt n).beard_index
    simp only [decodeInt, ha, Int.ofNat_eq_natCast]
    omega
  · obtain ⟨a, ha, hle⟩ := pyLand_sixty_three (pyShr n 30)
    show (decodeInt n).beard_index ≤ 63
    simp only [decodeInt, ha, Int.ofNat_eq_natCast]
    omega
  · obtain ⟨a, ha, hle⟩ := pyLand_sixty_three (pyShr n 36)
    show 0 ≤ (decodeInt n).age
    simp only [decodeInt, ha, Int.ofNat_eq_natCast]
    omega
  · obtain ⟨a, ha, hle⟩ := pyLand_sixty_three (pyShr n 36)
    show (decodeInt n).age ≤ 63
    simp only [decodeInt, ha, Int.ofNat_eq_natCast]
    omega
  · exact (skin_map_range _).1
  · exact (skin_map_range _).2

theorem format016x_length (n : Nat) (h : n < 18446744073709551616) :
    (format016x n).length = 16 := by
  have hlen : (hexDigits n).length ≤ 16 := by
    rw [hexDigits_eq]
    rcases Nat.eq_zero_or_pos n with rfl | hn
    · simp
    · rw [Nat.digits_len 16 n (by norm_num) (by omega)]
      have : Nat.log 16 n < 16 :=
        (Nat.lt_pow_iff_log_lt (by norm_num) (by omega)).mp
          (by norm_num; omega)
      omega
  unfold format016x
  rw [List.length_append, List.length_replicate, List.length_reverse, List.length_map]
  omega

/-! ## Claim theorems -/

/-- C1: the round-trip identity fails at skin_tone = 4 (a code bug): the
palette code 64 for index 4 is destroyed by the 6-bit mask (`64 & 0b111111
= 0`), so the all-zero record with skin_tone 4 encodes to the all-zero hex
string, which decodes back with skin_tone 0, not 4 — even though the
decoder's own `skin_map` carries the (unreachable) entry `64 : 4`. -/
theorem claim1_skin4_roundtrip_fails :
    faceParamsSkin4.Valid ∧ faceParamsSkin4.skin_tone = 4 ∧
      encode_face_code faceParamsSkin4 = .ok (("0x0000000000000000").toList) ∧
      decode_face_code (("0x0000000000000000").toList) = .ok (decodeInt 0) ∧
      (decodeInt 0).skin_tone = 0 := by
  refine ⟨by decide, by decide, by decide, by decide, by decide⟩

/-- C2: the skin-tone palette placement fails at index 4 (a code bug):
`skin_values[4] = 64` does not fit in the 6-bit field at bits 42-47, the
mask `& 0b111111` truncates it to 0, and an extracted 6-bit field can
never equal 64; indices 0-3 (codes 0, 16, 32, 48) do behave as described
on both the encode and the decode side. -/
theorem claim2_skin_palette_bits :
    skin_values.getD 4 0 = 64 ∧ 64 &&& 63 = 0 ∧
      (face_code_int faceParamsSkin4).map (fun n => n >>> 42 &&& 63) = .ok 0 ∧
      (face_code_int ⟨[0, 0, 0, 0, 0, 0, 0, 0], 0, 0, 0, 1⟩).map
        (fun n => n >>> 42 &&& 63) = .ok 16 ∧
      (face_code_int ⟨[0, 0, 0, 0, 0, 0, 0, 0], 0, 0, 0, 2⟩).map
        (fun n => n >>> 42 &&& 63) = .ok 32 ∧
      (face_code_int ⟨[0, 0, 0, 0, 0, 0, 0, 0], 0, 0, 0, 3⟩).map
        (fun n => n >>> 42 &&& 63) = .ok 48 ∧
      (decodeInt (Int.ofNat (0 <<< 42))).skin_tone = 0 ∧
      (decodeInt (Int.ofNat (16 <<< 42))).skin_tone = 1 ∧
      (decodeInt (Int.ofNat (32 <<< 42))).skin_tone = 2 ∧
      (decodeInt (Int.ofNat (48 <<< 42))).skin_tone = 3 ∧
      (decodeInt (Int.ofNat (64 <<< 42))).skin_tone = 0 := by
  refine ⟨by decide, by decide, by decide, by decide, by decide, by decide,
    by decide, by decide, by decide, by decide, by decide⟩

/-- C3: decoding an integer whose extracted 6-bit skin field (bits 42-47)
is not one of the five palette codes silently yields skin-tone index 0;
the lookup is a total function, so no error can arise from the skin
field. -/
theorem claim3_skin_fallback (n : Int)
    (h : pyLand (pyShr n 42) 63 ∉ ([0, 16, 32, 48, 64] : List Int)) :
    (decodeInt n).skin_tone = 0 := by
  have h' : pyLand (pyShr n 42) 63 ≠ 0 ∧ pyLand (pyShr n 42) 63 ≠ 16 ∧
      pyLand (pyShr n 42) 63 ≠ 32 ∧ pyLand (pyShr n 42) 63 ≠ 48 ∧
      pyLand (pyShr n 42) 63 ≠ 64 := by
    simp only [List.mem_cons, List.mem_singleton, not_or] at h
    exact ⟨h.1, h.2.1, h.2.2.1, h.2.2.2.1, by simpa using h.2.2.2.2⟩
  show skin_map (pyLand (pyShr n 42) 63) = 0
  unfold skin_map
  split_ifs <;> tauto

/-- C3 witness: bits 42-47 equal to 5 decode to skin-tone 0. -/
theorem claim3_skin_fallback_witness :
    pyLand (pyShr (Int.ofNat (5 <<< 42)) 42) 63 ∉ ([0, 16, 32, 48, 64] : List Int) ∧
      (decodeInt (Int.ofNat (5 <<< 42))).skin_tone = 0 :=
  ⟨by decide, claim3_skin_fallback (Int.ofNat (5 <<< 42)) (by decide)⟩

/-- C4: encoding any valid `FaceParameters` record succeeds and produces
exactly 18 characters: the prefix `0x` followed by 16 lowercase
hexadecimal digits, matching the `FaceCode` pattern. -/
theorem claim4_encode_canonical (p : FaceParameters) (h : p.Valid) :
    ∃ s, encode_face_code p = .ok s ∧ s.length = 18 ∧
      s.take 2 = (Char.ofNat 48 :: Char.ofNat 120 :: []) ∧
      (s.drop 2).length = 16 ∧ (∀ c ∈ s.drop 2, isLowerHexDigit c = true) ∧
      faceCodePattern s = true := by
  obtain ⟨hlen, hmo, hhair, hbeard, hage, hskin⟩ := h
  have hsv : ∃ sv, skin_values.get? p.skin_tone = some sv := by
    have h4 : p.skin_tone = 0 ∨ p.skin_tone = 1 ∨ p.skin_tone = 2 ∨
        p.skin_tone = 3 ∨ p.skin_tone = 4 := by omega
    rcases h4 with h4 | h4 | h4 | h4 | h4 <;> rw [h4] <;> exact ⟨_, rfl⟩
  obtain ⟨sv, hsv⟩ := hsv
  have hN : face_code_int p = .ok (faceIntBase p ||| ((sv &&& 63) <<< 42)) := by
    unfold face_code_int
    rw [hsv]
  have hlt : faceIntBase p ||| ((sv &&& 63) <<< 42) < 281474976710656 :=
    face_code_int_lt p _ hN hlen
  have hflen : (format016x (faceIntBase p ||| ((sv &&& 63) <<< 42))).length = 16 :=
    format016x_length _ (by omega)
  refine ⟨Char.ofNat 48 :: Char.ofNat 120 ::
    format016x (faceIntBase p ||| ((sv &&& 63) <<< 42)), ?_, ?_, rfl, ?_, ?_, ?_⟩
  · unfold encode_face_code
    rw [hN]
    rfl
  · simp [hflen]
  · simpa using hflen
  · intro c hc
    exact format016x_lower _ c (by simpa using hc)
  · have h3 : (format016x (faceIntBase p ||| ((sv &&& 63) <<< 42))).isEmpty = false := by
      rcases hfm : format016x (faceIntBase p ||| ((sv &&& 63) <<< 42)) with - | ⟨c, r⟩
      · rw [hfm] at hflen
        simp at hflen
      · rfl
    simp only [faceCodePattern, h3, format016x_all_hex]
    decide

/-- C4 witness: the all-zero valid record encodes canonically. -/
theorem claim4_encode_canonical_witness :
    FaceParameters.Valid ⟨[0, 0, 0, 0, 0, 0, 0, 0], 0, 0, 0, 0⟩ ∧
      ∃ s, encode_face_code ⟨[0, 0, 0, 0, 0, 0, 0, 0], 0, 0, 0, 0⟩ = .ok s ∧
        s.length = 18 ∧ s.take 2 = (Char.ofNat 48 :: Char.ofNat 120 :: []) ∧
        (s.drop 2).length = 16 ∧ (∀ c ∈ s.drop 2, isLowerHexDigit c = true) ∧
        faceCodePattern s = true :=
  ⟨by decide, claim4_encode_canonical ⟨[0, 0, 0, 0, 0, 0, 0, 0], 0, 0, 0, 0⟩ (by decide)⟩

/-- C5: every field is masked before shifting, so changing one morph slot
to an arbitrary (even out-of-mask) value leaves the bits of every other
morph and of hair_index unchanged in the encoded integer. -/
theorem claim5_masking_containment (p : FaceParameters)
    (hlen : p.morphs.length = 8) (j : Nat) (_hj : j < 8) (v : Nat) (N M : Nat)
    (hN : face_code_int p = .ok N)
    (hM : face_code_int { p with morphs := p.morphs.set j v } = .ok M) :
    (∀ i, i < 8 → i ≠ j → N >>> (i * 3) &&& 7 = M >>> (i * 3) &&& 7) ∧
      N >>> 24 &&& 63 = M >>> 24 &&& 63 := by
  have hlen2 : ({ p with morphs := p.morphs.set j v } : FaceParameters).morphs.length = 8 := by
    simpa using hlen
  constructor
  · intro i hi hij
    rw [face_code_int_morph p N hN hlen i hi,
      face_code_int_morph _ M hM hlen2 i hi]
    show p.morphs.getD i 0 % 8 = (p.morphs.set j v).getD i 0 % 8
    rw [List.getD_eq_getElem?_getD, List.getD_eq_getElem?_getD,
      List.getElem?_set_ne (fun hji => hij hji.symm)]
  · rw [face_code_int_hair p N hN hlen, face_code_int_hair _ M hM hlen2]

/-- C5 witness: setting morph 0 of the all-zero record to the out-of-mask
value 9 changes only morph 0's bits. -/
theorem claim5_masking_containment_witness :
    (∀ i, i < 8 → i ≠ 0 → (0 : Nat) >>> (i * 3) &&& 7 = (1 : Nat) >>> (i * 3) &&& 7) ∧
      (0 : Nat) >>> 24 &&& 63 = (1 : Nat) >>> 24 &&& 63 :=
  claim5_masking_containment ⟨[0, 0, 0, 0, 0, 0, 0, 0], 0, 0, 0, 0⟩ (by decide) 0
    (by decide) 9 0 1 (by decide) (by decide)

/-- C6: the validate operation is a total function: it always returns a
structured result echoing the input string; the `valid` flag is true
exactly when the base-16 parse of the prefix-stripped input succeeds
(the reconstruction of `FaceParameters` from extracted fields can never
fail, so parsing is the only failure source, and it is caught); a decode
failure's message is reported verbatim; the malformed input
`"not-a-code"` yields `valid = false`. -/
theorem claim6_validate_total (s : List Char) :
    (validate_face_code s).face_code = s ∧
      ((validate_face_code s).valid = true ↔
        (pyIntParse16 (strip0x s)).isSome = true) ∧
      (∀ e, decode_face_code s = .error e →
        validate_face_code s = ⟨false, s, pyErrMsg e⟩) ∧
      (validate_face_code (("not-a-code").toList)).valid = false := by
  have key : ∀ e, decode_face_code s = .error e →
      validate_face_code s = ⟨false, s, pyErrMsg e⟩ := by
    intro e he
    unfold validate_face_code
    rw [he]
  have hvt : (validate_face_code s).face_code = s ∧
      ((validate_face_code s).valid = true ↔
        (pyIntParse16 (strip0x s)).isSome = true) := by
    unfold validate_face_code decode_face_code
    rcases hp : pyIntParse16 (strip0x s) with - | n
    · simp
    · obtain ⟨p, hp2⟩ := mkFaceParameters_decodeInt n
      simp [hp2]
  exact ⟨hvt.1, hvt.2, key, by decide⟩

/-- C6 witness: the malformed input `"0q"` is caught and reported with
the parse failure's message. -/
theorem claim6_validate_total_witness :
    validate_face_code (("0q").toList) =
      ⟨false, ("0q").toList, pyErrMsg (PyErr.valueError invalidLiteralMsg)⟩ :=
  (claim6_validate_total (("0q").toList)).2.2.1 (PyErr.valueError invalidLiteralMsg)
    (by decide)

/-- C7 counterexample: decode succeeds on `"0x0x1a"` although after
stripping the leading `0x` the remainder `"0x1a"` is not a plain
non-empty hex-digit string (Python's `int(s, 16)` itself accepts one more
`0x` prefix), refuting the claimed "exactly when". -/
theorem claim7_decode_counterexample :
    decode_face_code (("0x0x1a").toList) = .ok (decodeInt 26) ∧
      specHexSeq (strip0x (("0x0x1a").toList)) = false := by
  refine ⟨by decide, by decide⟩

/-- C7 (amended): decode strips one leading `0x` (and tolerates its
absence) and parses the remainder as Python `int(·, 16)`; it succeeds on
every non-empty hex-digit remainder with the base-16 value, fails on the
empty string, and fails exactly when the remainder is not accepted by the
Python base-16 integer grammar (which also tolerates surrounding
whitespace, a sign, one `0x`/`0X` prefix and grouping underscores). -/
theorem claim7_decode_amended (s : List Char) (h1 : s ≠ [])
    (h2 : s.all isPyHexDigit = true) :
    decode_face_code (Char.ofNat 48 :: Char.ofNat 120 :: s) =
        .ok (decodeInt (Int.ofNat (hexListVal s))) ∧
      decode_face_code s = .ok (decodeInt (Int.ofNat (hexListVal s))) ∧
      decode_face_code [] = .error (.valueError invalidLiteralMsg) ∧
      ∀ t : List Char,
        exceptIsOk (decode_face_code t) = false ↔ pyIntParse16 (strip0x t) = none := by
  refine ⟨?_, ?_, by decide, ?_⟩
  · unfold decode_face_code
    rw [strip0x_prepend, pyIntParse16_all_hex s h1 h2]
  · unfold decode_face_code
    rw [strip0x_all_hex s h2, pyIntParse16_all_hex s h1 h2]
  · intro t
    unfold decode_face_code
    rcases pyIntParse16 (strip0x t) with - | n <;> simp [exceptIsOk]

/-- C7 witness: `"1a"` (with and without the `0x` prefix) decodes to the
fields of 26. -/
theorem claim7_decode_amended_witness :
    decode_face_code (Char.ofNat 48 :: Char.ofNat 120 :: ("1a").toList) =
        .ok (decodeInt (Int.ofNat (hexListVal (("1a").toList)))) ∧
      decode_face_code (("1a").toList) =
        .ok (decodeInt (Int.ofNat (hexListVal (("1a").toList)))) :=
  ⟨(claim7_decode_amended (("1a").toList) (by decide) (by decide)).1,
    (claim7_decode_amended (("1a").toList) (by decide) (by decide)).2.1⟩

/-- C8: whenever parsing succeeds, every returned character record
carries the fixed sentinel face code `"0x0000000000000000"` regardless of
the raw record, while name, sex and skin are copied through unchanged. -/
theorem claim8_parse_profile_sentinel (raws : List RawCharacter)
    (chs : List Character) (h : parse_profile raws = .ok chs) :
    chs.length = raws.length ∧
      ∀ i (hi : i < raws.length) (hc : i < chs.length),
        (chs.get ⟨i, hc⟩).face_code = ("0x0000000000000000").toList ∧
        (chs.get ⟨i, hc⟩).name = (raws.get ⟨i, hi⟩).name ∧
        (chs.get ⟨i, hc⟩).sex = (raws.get ⟨i, hi⟩).sex ∧
        (chs.get ⟨i, hc⟩).skin = (raws.get ⟨i, hi⟩).skin := by
  induction raws generalizing chs with
  | nil =>
    cases h
    exact ⟨rfl, fun i hi => absurd hi (by simp)⟩
  | cons c rest ih =>
    rw [parse_profile] at h
    rcases h1 : mkCharacter c.name (extract_face_code c) c.sex c.skin with e | ch <;>
      rw [h1] at h
    · cases h
    · rcases h2 : parse_profile rest with e | chs2 <;> rw [h2] at h
      · cases h
      · cases h
        obtain ⟨hl, hfield⟩ := ih chs2 h2
        have hch : ch = ⟨c.name, extract_face_code c, c.sex, c.skin⟩ := by
          unfold mkCharacter at h1
          split_ifs at h1
          cases h1
          rfl
        refine ⟨by simp [hl], ?_⟩
        intro i hi hc'
        cases i with
        | zero => simp [hch, extract_face_code]
        | succ k =>
          exact hfield k (by simpa using hi) (by simpa using hc')

/-- C8 witness: a one-record input with sex 1, skin 7 parses to a record
with the sentinel face code and copied fields. -/
theorem claim8_parse_profile_sentinel_witness :
    ([(⟨("a").toList, ("0x0000000000000000").toList, 1, 7⟩ : Character)].get
        ⟨0, by decide⟩).face_code = ("0x0000000000000000").toList ∧
      ([(⟨("a").toList, ("0x0000000000000000").toList, 1, 7⟩ : Character)].get
        ⟨0, by decide⟩).name = ([(⟨("a").toList, 1, 7⟩ : RawCharacter)].get
        ⟨0, by decide⟩).name :=
  have h := claim8_parse_profile_sentinel [⟨("a").toList, 1, 7⟩]
    [⟨("a").toList, ("0x0000000000000000").toList, 1, 7⟩] (by decide)
  ⟨(h.2 0 (by decide) (by decide)).1, (h.2 0 (by decide) (by decide)).2.1⟩

/-- C9: the update-face stub reports failure without mutating anything,
and for an existing upload the endpoint answers with a 400 client error
whose detail carries "Failed to update face", leaving the stored uploads
unchanged. -/
theorem claim9_update_face_stub (st : ServerState) (uid : List Char)
    (idx : Int) (code : List Char)
    (h : fileExists st (uploadPath uid) = true) :
    (∀ path j fc, update_character_face st path j fc = (false, st)) ∧
      (update_character_face_endpoint st uid idx code).1.status = 400 ∧
      (("Failed to update face").toList) <:+
        (update_character_face_endpoint st uid idx code).1.body ∧
      (update_character_face_endpoint st uid idx code).2 = st := by
  have hend : update_character_face_endpoint st uid idx code =
      (⟨400, httpExcStr 400 (("Failed to update face").toList)⟩, st) := by
    unfold update_character_face_endpoint
    rw [if_pos h]
    rfl
  refine ⟨fun path j fc => rfl, ?_, ?_, ?_⟩
  · rw [hend]
  · rw [hend]
    exact ⟨(Nat.repr 400).toList ++ (": ").toList, by simp [httpExcStr]⟩
  · rw [hend]

/-- C9 witness: a store holding one upload named "u". -/
theorem claim9_update_face_stub_witness :
    (update_character_face_endpoint ⟨[(uploadPath (("u").toList), [])]⟩
        (("u").toList) 0 []).1.status = 400 ∧
      (update_character_face_endpoint ⟨[(uploadPath (("u").toList), [])]⟩
        (("u").toList) 0 []).2 = ⟨[(uploadPath (("u").toList), [])]⟩ :=
  have h := claim9_update_face_stub ⟨[(uploadPath (("u").toList), [])]⟩
    (("u").toList) 0 [] (by decide)
  ⟨h.2.1, h.2.2.2⟩

/-- C10 (implicit): a frame that parses to a JSON object with
`type = "face_update"` but no `"parameters"` key raises a KeyError inside
the handler; `except ValueError` does not catch it, so no error frame is
sent and the receive loop is torn down with the remaining messages
unprocessed — whereas a `face_update` whose parameters merely fail range
validation gets a structured error frame and the loop continues. -/
theorem claim10_ws_missing_parameters :
    (∀ kvs rest, dictGet kvs (("type").toList) = some (.str (("face_update").toList)) →
      dictGet kvs (("parameters").toList) = none →
      wsLoop (Json.obj kvs :: rest) = ([], some (.keyError (("parameters").toList)))) ∧
      (∀ kvs pj m rest,
        dictGet kvs (("type").toList) = some (.str (("face_update").toList)) →
        dictGet kvs (("parameters").toList) = some pj →
        mkFaceParametersJson pj = .error (.valueError m) →
        wsLoop (Json.obj kvs :: rest) =
          (OutFrame.errorFrame m :: (wsLoop rest).1, (wsLoop rest).2)) := by
  constructor
  · intro kvs rest hty hparams
    have hstep : wsStep (Json.obj kvs) = ([], some (.keyError (("parameters").toList))) := by
      simp only [wsStep, hty, hparams, jsonEqStr, beq_self_eq_true, if_true]
    rw [wsLoop, hstep]
  · intro kvs pj m rest hty hparams hmk
    have hstep : wsStep (Json.obj kvs) = ([OutFrame.errorFrame m], none) := by
      simp only [wsStep, hty, hparams, hmk, jsonEqStr, beq_self_eq_true, if_true]
    rw [wsLoop, hstep]
    rcases hr : wsLoop rest with ⟨fs2, e2⟩
    simp

/-- C10 witness: concrete frames — a `face_update` without parameters
tears the loop down with no output; one with an out-of-range morph yields
exactly one error frame and a clean loop end. -/
theorem claim10_ws_missing_parameters_witness :
    wsLoop [Json.obj [((("type").toList), Json.str (("face_update").toList))]] =
        ([], some (.keyError (("parameters").toList))) ∧
      wsLoop [Json.obj [((("type").toList), Json.str (("face_update").toList)),
          ((("parameters").toList), Json.obj
            [((("morphs").toList), Json.arr [Json.num 9, Json.num 0, Json.num 0,
              Json.num 0, Json.num 0, Json.num 0, Json.num 0, Json.num 0]),
             ((("hair_index").toList), Json.num 0),
             ((("beard_index").toList), Json.num 0),
             ((("age").toList), Json.num 0),
             ((("skin_tone").toList), Json.num 0)])]] =
        (OutFrame.errorFrame validationErrMsg :: (wsLoop []).1, (wsLoop []).2) := by
  constructor
  · exact (claim10_ws_missing_parameters).1
      [((("type").toList), Json.str (("face_update").toList))] [] rfl rfl
  · exact (claim10_ws_missing_parameters).2
      [((("type").toList), Json.str (("face_update").toList)),
        ((("parameters").toList), Json.obj
          [((("morphs").toList), Json.arr [Json.num 9, Json.num 0, Json.num 0,
            Json.num 0, Json.num 0, Json.num 0, Json.num 0, Json.num 0]),
           ((("hair_index").toList), Json.num 0),
           ((("beard_index").toList), Json.num 0),
           ((("age").toList), Json.num 0),
           ((("skin_tone").toList), Json.num 0)])] _ validationErrMsg [] rfl rfl rfl

end Warband
